import Mathlib

/-!
Shallow embedding of src/src/platform/haswell/clk.c (the Haswell clock-rate
controller of SOF). Machine integers are modelled as Nat with explicit
reductions mod 2^64 where uint64 overflow matters; array accesses that the C
code performs without a bounds check are modelled through List.get?, so an
out-of-bounds access surfaces as Option.none. Hardware register writes and
notifier fan-out are modelled as a trace of events emitted in program order.
-/

/-- NUM_CLOCKS from clk.c: the per-domain state array has two slots. -/
def NUM_CLOCKS : Nat := 2

/-- Modelled from the spec: platform/clk.h is not under src/. The spec makes
ClockDomain a small enumeration; clk.c indexes the NUM_CLOCKS = 2 element state
array with these identifiers and initializes the locks of clk[0] and clk[1],
so CLK_CPU and CLK_SSP are the indices 0 and 1. -/
def CLK_CPU : Nat := 0

/-- Modelled from the spec: see CLK_CPU. -/
def CLK_SSP : Nat := 1

/-- Modelled from the spec: sof/notifier.h is not under src/; the topic id of
CPU frequency change notifications. Its concrete value is immaterial here. -/
def NOTIFIER_ID_CPU_FREQ : Nat := 0

/-- Modelled from the spec: sof/clock.h is not under src/; the pre-change
phase tag. Only its distinctness from CLOCK_NOTIFY_POST matters. -/
def CLOCK_NOTIFY_PRE : Nat := 0

/-- Modelled from the spec: sof/clock.h is not under src/; the post-change
phase tag. -/
def CLOCK_NOTIFY_POST : Nat := 1

/-- ULONG_LONG_MAX from limits.h: the maximum value of a 64-bit unsigned. -/
def ULONG_LONG_MAX : Nat := 2 ^ 64 - 1

/-- struct clk_data of clk.c. The spinlock field is omitted: the embedding is
sequential and lock acquire/release have no observable effect here. -/
structure clk_data where
  freq : Nat
  ticks_per_usec : Nat
deriving DecidableEq, Repr

/-- struct clk_pdata of clk.c: the state array clk[NUM_CLOCKS]. -/
structure clk_pdata where
  clk : List clk_data
deriving DecidableEq, Repr

/-- struct freq_table of clk.c. -/
structure freq_table where
  freq : Nat
  ticks_per_usec : Nat
  fabric : Nat
  enc : Nat
deriving DecidableEq, Repr

/-- The cpu_freq table of clk.c, verbatim; the source comment above it says
increasing frequency order. -/
def cpu_freq : List freq_table :=
  [⟨32000000, 80, 32000000, 0x6⟩,
   ⟨80000000, 80, 80000000, 0x2⟩,
   ⟨160000000, 160, 80000000, 0x1⟩,
   ⟨320000000, 320, 160000000, 0x4⟩,
   ⟨320000000, 320, 80000000, 0x0⟩,
   ⟨160000000, 160, 160000000, 0x5⟩]

/-- The ssp_freq table of clk.c, verbatim. -/
def ssp_freq : List freq_table :=
  [⟨24000000, 24, 0, 0⟩]

/-- CPU_DEFAULT_IDX from clk.c. -/
def CPU_DEFAULT_IDX : Nat := 3

/-- SSP_DEFAULT_IDX from clk.c. -/
def SSP_DEFAULT_IDX : Nat := 0

/-- The loop body of get_freq in clk.c: i is the C loop counter, the list
argument is the slice table[i..]. When the loop exhausts the table, i equals
size, and the C function returns size - 1, here i - 1. -/
def get_freq_go (hz i : Nat) : List freq_table → Nat
  | [] => i - 1
  | e :: rest => if hz ≤ e.freq then i else get_freq_go hz (i + 1) rest

/-- get_freq(table, size, hz) of clk.c with size = ARRAY_SIZE(table), as at
both of its call sites: the index of the first entry with hz <= freq, else
size - 1. -/
def get_freq (table : List freq_table) (hz : Nat) : Nat :=
  get_freq_go hz 0 table

/-- struct clock_notify_data: the payload handed to notifier_event. -/
structure clock_notify_data where
  old_freq : Nat
  old_ticks_per_usec : Nat
  freq : Nat
deriving DecidableEq, Repr

/-- The externally observable actions of clock_set_freq, in program order:
notifier_event(id, phase, data), and the SHIM CSR read-modify-write
io_reg_update_bits(SHIM_BASE + SHIM_CSR, SHIM_CSR_DCS_MASK,
SHIM_CSR_DCS(enc)). The SHIM_* constants live in headers outside src/, so the
register event records the encoding written to the fixed clock-select field. -/
inductive ClkEvent where
  | notifier_event (id : Nat) (phase : Nat) (data : clock_notify_data)
  | io_reg_update_bits (enc : Nat)
deriving DecidableEq, Repr

/-- clock_set_freq of clk.c. Result: none when an array access is out of
bounds (the C code indexes clk[clock] and cpu_freq[idx] without a check),
otherwise (final state, event trace, returned uint32). Statement order of the
source is preserved: read old freq and ticks from clk[clock], lock (no
observable effect), switch on the domain, unlock, return clk[clock].freq
re-read from the state. No statement of the source assigns to clk_pdata, so
the final state is the input state. -/
def clock_set_freq (st : clk_pdata) (clock hz : Nat) :
    Option (clk_pdata × List ClkEvent × Nat) :=
  match st.clk.get? clock with
  | none => none
  | some cd =>
    let old_freq := cd.freq
    let old_ticks_per_usec := cd.ticks_per_usec
    let events? : Option (List ClkEvent) :=
      if clock = CLK_CPU then
        match cpu_freq.get? (get_freq cpu_freq hz) with
        | none => none
        | some entry =>
          some [ClkEvent.notifier_event NOTIFIER_ID_CPU_FREQ CLOCK_NOTIFY_PRE
                  ⟨old_freq, old_ticks_per_usec, entry.freq⟩,
                ClkEvent.io_reg_update_bits entry.enc,
                ClkEvent.notifier_event NOTIFIER_ID_CPU_FREQ CLOCK_NOTIFY_POST
                  ⟨old_freq, old_ticks_per_usec, entry.freq⟩]
      else some []
    match events? with
    | none => none
    | some events =>
      match st.clk.get? clock with
      | none => none
      | some cd2 => some (st, events, cd2.freq)

/-- clock_get_freq of clk.c: clk_pdata->clk[clock].freq, none when the index
is out of bounds. -/
def clock_get_freq (st : clk_pdata) (clock : Nat) : Option Nat :=
  (st.clk.get? clock).map clk_data.freq

/-- clock_us_to_ticks of clk.c: ticks_per_usec * us in uint64 arithmetic. -/
def clock_us_to_ticks (st : clk_pdata) (clock : Nat) (us : Nat) : Option Nat :=
  (st.clk.get? clock).map (fun cd => cd.ticks_per_usec * us % 2 ^ 64)

/-- clock_time_elapsed of clk.c. The two timer reads arch_timer_get_system
and platform_timer_get are external collaborators, passed in as the oracle
values arch_system_ticks and platform_ticks. Result: none when the state
array access is out of bounds, otherwise (value written through the current
pointer if any, returned uint64). The default switch branch returns 0 before
the pointer write and before any state access. -/
def clock_time_elapsed (st : clk_pdata)
    (clock arch_system_ticks platform_ticks previous : Nat) :
    Option (Option Nat × Nat) :=
  match (if clock = CLK_CPU then some arch_system_ticks
         else if clock = CLK_SSP then some platform_ticks
         else none) with
  | none => some (none, 0)
  | some _current =>
    match st.clk.get? clock with
    | none => none
    | some cd =>
      if previous ≤ _current then
        some (some _current, (_current - previous) / cd.ticks_per_usec)
      else
        some (some _current,
          (_current + (ULONG_LONG_MAX - previous)) % 2 ^ 64 / cd.ticks_per_usec)

/-- rzalloc(RZONE_SYS, SOF_MEM_CAPS_RAM, sizeof(*clk_pdata)): zeroed memory
for the state array. -/
def rzalloc_clk_pdata : clk_pdata :=
  ⟨List.replicate NUM_CLOCKS ⟨0, 0⟩⟩

/-- init_platform_clocks of clk.c: allocate the zeroed state, then set each
domain freq and ticks_per_usec from its table default entry (spinlock_init
has no observable effect in this sequential embedding). Both default indices
are in bounds of their concrete tables, so getD never takes its fallback. -/
def init_platform_clocks : clk_pdata :=
  let st := rzalloc_clk_pdata
  let cpu_def := cpu_freq.getD CPU_DEFAULT_IDX ⟨0, 0, 0, 0⟩
  let ssp_def := ssp_freq.getD SSP_DEFAULT_IDX ⟨0, 0, 0, 0⟩
  let st1 : clk_pdata := ⟨st.clk.set CLK_CPU ⟨cpu_def.freq, cpu_def.ticks_per_usec⟩⟩
  let st2 : clk_pdata := ⟨st1.clk.set CLK_SSP ⟨ssp_def.freq, ssp_def.ticks_per_usec⟩⟩
  st2

/-! Helper lemmas shared by several developments below. -/

/-- The selector index on the concrete cpu_freq table is always in bounds:
either the scan hits an entry (index below the length) or it falls through to
size - 1 = 5. -/
theorem get_freq_cpu_lt (hz : Nat) : get_freq cpu_freq hz < cpu_freq.length := by
  simp only [get_freq, cpu_freq, get_freq_go, List.length_cons, List.length_nil]
  split_ifs <;> norm_num

/-- The cpu_freq access at the selector result never goes out of bounds. -/
theorem cpu_freq_get_freq_some (hz : Nat) :
    ∃ e, cpu_freq.get? (get_freq cpu_freq hz) = some e := by
  have h := get_freq_cpu_lt hz
  exact ⟨cpu_freq.get ⟨_, h⟩, List.get?_eq_get h⟩

/-- Evaluation of clock_set_freq on the CPU domain when both array accesses
succeed: the trace is pre-notification, register write, post-notification, and
the returned value is the stored frequency re-read from the unchanged state. -/
theorem clock_set_freq_cpu_eq (st : clk_pdata) (hz : Nat) (cd : clk_data)
    (e : freq_table)
    (hcd : st.clk.get? CLK_CPU = some cd)
    (he : cpu_freq.get? (get_freq cpu_freq hz) = some e) :
    clock_set_freq st CLK_CPU hz =
      some (st,
        [ClkEvent.notifier_event NOTIFIER_ID_CPU_FREQ CLOCK_NOTIFY_PRE
            ⟨cd.freq, cd.ticks_per_usec, e.freq⟩,
         ClkEvent.io_reg_update_bits e.enc,
         ClkEvent.notifier_event NOTIFIER_ID_CPU_FREQ CLOCK_NOTIFY_POST
            ⟨cd.freq, cd.ticks_per_usec, e.freq⟩],
        cd.freq) := by
  unfold clock_set_freq
  rw [hcd]
  dsimp only
  rw [if_pos rfl, he]

/-- Evaluation of clock_set_freq on any domain other than CLK_CPU whose state
array access succeeds (the switch falls through CLK_SSP and default to break):
no events, and the stored frequency is returned from the unchanged state. -/
theorem clock_set_freq_other_eq (st : clk_pdata) (clock hz : Nat)
    (cd : clk_data)
    (hc : clock ≠ CLK_CPU) (hcd : st.clk.get? clock = some cd) :
    clock_set_freq st clock hz = some (st, [], cd.freq) := by
  unfold clock_set_freq
  rw [hcd]
  dsimp only
  rw [if_neg hc]

/-- A successful clock_set_freq call forces the state array access to be in
bounds. -/
theorem clock_set_freq_some_clk (st : clk_pdata) (clock hz : Nat)
    (res : clk_pdata × List ClkEvent × Nat)
    (h : clock_set_freq st clock hz = some res) :
    ∃ cd, st.clk.get? clock = some cd := by
  cases hcd : st.clk.get? clock with
  | none => rw [clock_set_freq, hcd] at h; exact absurd h (by simp)
  | some cd => exact ⟨cd, rfl⟩

/-- clock_set_freq never mutates the stored state: no statement of the source
assigns to clk_pdata. -/
theorem clock_set_freq_state_eq (st st' : clk_pdata) (clock hz : Nat)
    (tr : List ClkEvent) (r : Nat)
    (h : clock_set_freq st clock hz = some (st', tr, r)) : st' = st := by
  obtain ⟨cd, hcd⟩ := clock_set_freq_some_clk st clock hz _ h
  by_cases hc : clock = CLK_CPU
  · subst hc
    obtain ⟨e, he⟩ := cpu_freq_get_freq_some hz
    rw [clock_set_freq_cpu_eq st hz cd e hcd he] at h
    simp only [Option.some.injEq, Prod.mk.injEq] at h
    exact h.1.symm
  · rw [clock_set_freq_other_eq st clock hz cd hc hcd] at h
    simp only [Option.some.injEq, Prod.mk.injEq] at h
    exact h.1.symm

/-! Claim theorems. -/

/-- C1: the claim says clock_set_freq(domain, hz) returns the smallest table
entry whose frequency is at least hz. The code never stores the selected
frequency: it returns the stale clk_pdata->clk[clock].freq. At the failing
input (state after init_platform_clocks, domain CLK_CPU, hz = 32000000) the
smallest qualifying entry is cpu_freq[0].freq = 32000000, the selector indeed
picks index 0, yet the call returns 320000000. -/
theorem clock_set_freq_returns_stale_freq :
    (clock_set_freq init_platform_clocks CLK_CPU 32000000).map (fun r => r.2.2) =
      some 320000000 ∧
    get_freq cpu_freq 32000000 = 0 ∧
    (cpu_freq.get? 0).map freq_table.freq = some 32000000 ∧
    (320000000 : Nat) ≠ 32000000 := by decide

/-- C2: the claim (and the source comment above cpu_freq) says each table is
non-empty and ascending in freq. Both tables are non-empty and ssp_freq is
ascending, but cpu_freq is not: entry 4 has freq 320000000 while entry 5 has
freq 160000000. -/
theorem freq_tables_sorted_status :
    cpu_freq ≠ [] ∧ ssp_freq ≠ [] ∧
    List.Chain' (fun a b => a.freq ≤ b.freq) ssp_freq ∧
    ¬ List.Chain' (fun a b => a.freq ≤ b.freq) cpu_freq ∧
    (cpu_freq.get? 4).map freq_table.freq = some 320000000 ∧
    (cpu_freq.get? 5).map freq_table.freq = some 160000000 := by
  refine ⟨by decide, by decide, by simp [ssp_freq], ?_, by decide, by decide⟩
  intro h
  simp only [cpu_freq, List.chain'_cons, List.chain'_singleton] at h
  omega

/-- C3: the claim says get_freq returns the index of the lowest entry with
freq >= hz, and on overflow the last index, which would be the highest
frequency. The first part holds on the concrete tables (e.g. hz = 100000000
selects index 2, freq 160000000, the first ascending match, not a later
duplicate), but the fallback index cpu_freq.length - 1 = 5 carries frequency
160000000 while the table maximum is 320000000: the comment in get_freq
(return max frequency) is contradicted by the unsorted table. -/
theorem get_freq_clamp_not_max :
    get_freq cpu_freq 100000000 = 2 ∧
    (cpu_freq.get? 2).map freq_table.freq = some 160000000 ∧
    get_freq cpu_freq 320000001 = cpu_freq.length - 1 ∧
    (cpu_freq.get? (cpu_freq.length - 1)).map freq_table.freq = some 160000000 ∧
    (cpu_freq.map freq_table.freq).foldr max 0 = 320000000 ∧
    (160000000 : Nat) ≠ 320000000 := by decide

/-- C5: after init_platform_clocks, clock_get_freq returns each domain's
table default: cpu_freq[CPU_DEFAULT_IDX].freq = 320000000 for CLK_CPU (index
3) and ssp_freq[SSP_DEFAULT_IDX].freq = 24000000 for CLK_SSP (index 0). -/
theorem clock_get_freq_after_init :
    clock_get_freq init_platform_clocks CLK_CPU = some 320000000 ∧
    clock_get_freq init_platform_clocks CLK_SSP = some 24000000 ∧
    CPU_DEFAULT_IDX = 3 ∧
    (cpu_freq.get? CPU_DEFAULT_IDX).map freq_table.freq = some 320000000 ∧
    SSP_DEFAULT_IDX = 0 ∧
    (ssp_freq.get? SSP_DEFAULT_IDX).map freq_table.freq = some 24000000 := by decide

/-- C4: in clock_set_freq(CLK_CPU, hz), the pre-change notification carrying
the old frequency, the old ticks_per_usec and the newly selected table
frequency is emitted strictly before the hardware register update, and the
post-change notification with the same payload strictly after it. -/
theorem clock_set_freq_notify_order (st st' : clk_pdata) (hz r : Nat)
    (cd : clk_data) (tr : List ClkEvent)
    (hcd : st.clk.get? CLK_CPU = some cd)
    (h : clock_set_freq st CLK_CPU hz = some (st', tr, r)) :
    ∃ nd : clock_notify_data, ∃ enc i j k : Nat,
      nd.old_freq = cd.freq ∧
      nd.old_ticks_per_usec = cd.ticks_per_usec ∧
      (cpu_freq.get? (get_freq cpu_freq hz)).map freq_table.freq = some nd.freq ∧
      (cpu_freq.get? (get_freq cpu_freq hz)).map freq_table.enc = some enc ∧
      i < j ∧ j < k ∧
      tr.get? i =
        some (ClkEvent.notifier_event NOTIFIER_ID_CPU_FREQ CLOCK_NOTIFY_PRE nd) ∧
      tr.get? j = some (ClkEvent.io_reg_update_bits enc) ∧
      tr.get? k =
        some (ClkEvent.notifier_event NOTIFIER_ID_CPU_FREQ CLOCK_NOTIFY_POST nd) := by
  obtain ⟨e, he⟩ := cpu_freq_get_freq_some hz
  rw [clock_set_freq_cpu_eq st hz cd e hcd he] at h
  simp only [Option.some.injEq, Prod.mk.injEq] at h
  obtain ⟨-, htr, -⟩ := h
  subst htr
  exact ⟨⟨cd.freq, cd.ticks_per_usec, e.freq⟩, e.enc, 0, 1, 2, rfl, rfl,
    by rw [he]; rfl, by rw [he]; rfl, by norm_num, by norm_num, rfl, rfl, rfl⟩

/-- Witness for C4 at the initialized state and hz = 100000000: the selected
entry is index 2 with frequency 160000000 and encoding 1. -/
theorem clock_set_freq_notify_order_witness :
    ∃ nd : clock_notify_data, ∃ enc i j k : Nat,
      nd.old_freq = 320000000 ∧
      nd.old_ticks_per_usec = 320 ∧
      (cpu_freq.get? (get_freq cpu_freq 100000000)).map freq_table.freq =
        some nd.freq ∧
      (cpu_freq.get? (get_freq cpu_freq 100000000)).map freq_table.enc =
        some enc ∧
      i < j ∧ j < k ∧
      ([ClkEvent.notifier_event NOTIFIER_ID_CPU_FREQ CLOCK_NOTIFY_PRE
          ⟨320000000, 320, 160000000⟩,
        ClkEvent.io_reg_update_bits 1,
        ClkEvent.notifier_event NOTIFIER_ID_CPU_FREQ CLOCK_NOTIFY_POST
          ⟨320000000, 320, 160000000⟩] : List ClkEvent).get? i =
        some (ClkEvent.notifier_event NOTIFIER_ID_CPU_FREQ CLOCK_NOTIFY_PRE nd) ∧
      ([ClkEvent.notifier_event NOTIFIER_ID_CPU_FREQ CLOCK_NOTIFY_PRE
          ⟨320000000, 320, 160000000⟩,
        ClkEvent.io_reg_update_bits 1,
        ClkEvent.notifier_event NOTIFIER_ID_CPU_FREQ CLOCK_NOTIFY_POST
          ⟨320000000, 320, 160000000⟩] : List ClkEvent).get? j =
        some (ClkEvent.io_reg_update_bits enc) ∧
      ([ClkEvent.notifier_event NOTIFIER_ID_CPU_FREQ CLOCK_NOTIFY_PRE
          ⟨320000000, 320, 160000000⟩,
        ClkEvent.io_reg_update_bits 1,
        ClkEvent.notifier_event NOTIFIER_ID_CPU_FREQ CLOCK_NOTIFY_POST
          ⟨320000000, 320, 160000000⟩] : List ClkEvent).get? k =
        some (ClkEvent.notifier_event NOTIFIER_ID_CPU_FREQ CLOCK_NOTIFY_POST nd) :=
  clock_set_freq_notify_order init_platform_clocks init_platform_clocks
    100000000 320000000 ⟨320000000, 320⟩ _ rfl rfl

/-- C6: clock_time_elapsed on a known domain writes the freshly read tick
value through the current pointer and returns (current - previous) /
ticks_per_usec when current >= previous, else (current + (ULONG_LONG_MAX -
previous)) / ticks_per_usec, with ULONG_LONG_MAX = 2^64 - 1 and truncating
division. -/
theorem clock_time_elapsed_formula (st : clk_pdata)
    (clock arch_system_ticks platform_ticks previous cur : Nat) (cd : clk_data)
    (hclock : (clock = CLK_CPU ∧ cur = arch_system_ticks) ∨
              (clock = CLK_SSP ∧ cur = platform_ticks))
    (hcd : st.clk.get? clock = some cd)
    (htpu : 0 < cd.ticks_per_usec)
    (hcur : cur < 2 ^ 64)
    (hprev : previous < 2 ^ 64) :
    clock_time_elapsed st clock arch_system_ticks platform_ticks previous =
      some (some cur,
        if previous ≤ cur then (cur - previous) / cd.ticks_per_usec
        else (cur + (ULONG_LONG_MAX - previous)) / cd.ticks_per_usec) := by
  rcases hclock with ⟨hc, he⟩ | ⟨hc, he⟩ <;> subst hc <;> subst he
  · unfold clock_time_elapsed
    rw [if_pos rfl]
    dsimp only
    rw [hcd]
    dsimp only
    split_ifs with hle
    · rfl
    · rw [Nat.mod_eq_of_lt (by simp only [ULONG_LONG_MAX]; omega)]
  · unfold clock_time_elapsed
    rw [if_neg (by decide), if_pos rfl]
    dsimp only
    rw [hcd]
    dsimp only
    split_ifs with hle
    · rfl
    · rw [Nat.mod_eq_of_lt (by simp only [ULONG_LONG_MAX]; omega)]

/-- Witness for C6 at the wraparound example of the spec: previous ten below
the counter wrap, current 5, ticks_per_usec 10; elapsed (5 + (2^64 - 1 -
(2^64 - 10))) / 10 = 1 microsecond. -/
theorem clock_time_elapsed_formula_witness :
    clock_time_elapsed ⟨[⟨0, 10⟩, ⟨0, 10⟩]⟩ CLK_CPU 5 0 (2 ^ 64 - 10) =
      some (some 5, 1) := by
  rw [clock_time_elapsed_formula ⟨[⟨0, 10⟩, ⟨0, 10⟩]⟩ CLK_CPU 5 0 (2 ^ 64 - 10) 5
    ⟨0, 10⟩ (Or.inl ⟨rfl, rfl⟩) rfl (by norm_num) (by norm_num) (by norm_num)]
  norm_num [ULONG_LONG_MAX]

/-- C7: two successive clock_set_freq calls on the same domain with the same
hz return the same value, and on CLK_CPU each call emits its own pre and post
notification pair (not suppressed when the frequency does not change). -/
theorem clock_set_freq_idempotent (st st1 st2 : clk_pdata) (clock hz : Nat)
    (tr1 tr2 : List ClkEvent) (r1 r2 : Nat)
    (h1 : clock_set_freq st clock hz = some (st1, tr1, r1))
    (h2 : clock_set_freq st1 clock hz = some (st2, tr2, r2)) :
    r1 = r2 ∧ tr1 = tr2 ∧
    (clock = CLK_CPU → ∃ nd,
      ClkEvent.notifier_event NOTIFIER_ID_CPU_FREQ CLOCK_NOTIFY_PRE nd ∈ tr1 ∧
      ClkEvent.notifier_event NOTIFIER_ID_CPU_FREQ CLOCK_NOTIFY_POST nd ∈ tr1 ∧
      ClkEvent.notifier_event NOTIFIER_ID_CPU_FREQ CLOCK_NOTIFY_PRE nd ∈ tr2 ∧
      ClkEvent.notifier_event NOTIFIER_ID_CPU_FREQ CLOCK_NOTIFY_POST nd ∈ tr2) := by
  have hst := clock_set_freq_state_eq st st1 clock hz tr1 r1 h1
  subst st1
  rw [h1] at h2
  simp only [Option.some.injEq, Prod.mk.injEq] at h2
  obtain ⟨-, htr, hr⟩ := h2
  subst htr
  refine ⟨hr, rfl, ?_⟩
  intro hc
  subst hc
  obtain ⟨cd, hcd⟩ := clock_set_freq_some_clk st CLK_CPU hz _ h1
  obtain ⟨e, he⟩ := cpu_freq_get_freq_some hz
  rw [clock_set_freq_cpu_eq st hz cd e hcd he] at h1
  simp only [Option.some.injEq, Prod.mk.injEq] at h1
  obtain ⟨-, htr1, -⟩ := h1
  subst htr1
  exact ⟨⟨cd.freq, cd.ticks_per_usec, e.freq⟩, by simp, by simp, by simp, by simp⟩

/-- Witness for C7: two calls at the initialized state, CLK_CPU, hz =
100000000 both return 320000000 and both traces carry the pre and post pair. -/
theorem clock_set_freq_idempotent_witness :
    (320000000 : Nat) = 320000000 ∧
    ([ClkEvent.notifier_event NOTIFIER_ID_CPU_FREQ CLOCK_NOTIFY_PRE
        ⟨320000000, 320, 160000000⟩,
      ClkEvent.io_reg_update_bits 1,
      ClkEvent.notifier_event NOTIFIER_ID_CPU_FREQ CLOCK_NOTIFY_POST
        ⟨320000000, 320, 160000000⟩] : List ClkEvent) =
      [ClkEvent.notifier_event NOTIFIER_ID_CPU_FREQ CLOCK_NOTIFY_PRE
        ⟨320000000, 320, 160000000⟩,
       ClkEvent.io_reg_update_bits 1,
       ClkEvent.notifier_event NOTIFIER_ID_CPU_FREQ CLOCK_NOTIFY_POST
        ⟨320000000, 320, 160000000⟩] ∧
    (CLK_CPU = CLK_CPU → ∃ nd,
      ClkEvent.notifier_event NOTIFIER_ID_CPU_FREQ CLOCK_NOTIFY_PRE nd ∈
        ([ClkEvent.notifier_event NOTIFIER_ID_CPU_FREQ CLOCK_NOTIFY_PRE
            ⟨320000000, 320, 160000000⟩,
          ClkEvent.io_reg_update_bits 1,
          ClkEvent.notifier_event NOTIFIER_ID_CPU_FREQ CLOCK_NOTIFY_POST
            ⟨320000000, 320, 160000000⟩] : List ClkEvent) ∧
      ClkEvent.notifier_event NOTIFIER_ID_CPU_FREQ CLOCK_NOTIFY_POST nd ∈
        ([ClkEvent.notifier_event NOTIFIER_ID_CPU_FREQ CLOCK_NOTIFY_PRE
            ⟨320000000, 320, 160000000⟩,
          ClkEvent.io_reg_update_bits 1,
          ClkEvent.notifier_event NOTIFIER_ID_CPU_FREQ CLOCK_NOTIFY_POST
            ⟨320000000, 320, 160000000⟩] : List ClkEvent) ∧
      ClkEvent.notifier_event NOTIFIER_ID_CPU_FREQ CLOCK_NOTIFY_PRE nd ∈
        ([ClkEvent.notifier_event NOTIFIER_ID_CPU_FREQ CLOCK_NOTIFY_PRE
            ⟨320000000, 320, 160000000⟩,
          ClkEvent.io_reg_update_bits 1,
          ClkEvent.notifier_event NOTIFIER_ID_CPU_FREQ CLOCK_NOTIFY_POST
            ⟨320000000, 320, 160000000⟩] : List ClkEvent) ∧
      ClkEvent.notifier_event NOTIFIER_ID_CPU_FREQ CLOCK_NOTIFY_POST nd ∈
        ([ClkEvent.notifier_event NOTIFIER_ID_CPU_FREQ CLOCK_NOTIFY_PRE
            ⟨320000000, 320, 160000000⟩,
          ClkEvent.io_reg_update_bits 1,
          ClkEvent.notifier_event NOTIFIER_ID_CPU_FREQ CLOCK_NOTIFY_POST
            ⟨320000000, 320, 160000000⟩] : List ClkEvent)) :=
  clock_set_freq_idempotent init_platform_clocks init_platform_clocks
    init_platform_clocks CLK_CPU 100000000 _ _ 320000000 320000000 rfl rfl

/-- C8 counterexample: the claim says clock_set_freq completes as a silent
no-op and returns a frequency value for every domain identifier, including
unknown ones. At domain 2 (neither CLK_CPU nor CLK_SSP) the very first
statement of clock_set_freq already indexes clk_pdata->clk[2], past the
NUM_CLOCKS = 2 element array: the access is out of bounds, not a completed
no-op returning a frequency. -/
theorem clock_set_freq_unknown_domain_oob :
    clock_set_freq init_platform_clocks 2 48000 = none ∧
    (2 : Nat) ≠ CLK_CPU ∧ (2 : Nat) ≠ CLK_SSP ∧
    init_platform_clocks.clk.length = NUM_CLOCKS := by decide

/-- C8 amended: for the domains that exist in the state array the permissive
contract holds for the one the switch does not handle: clock_set_freq on
CLK_SSP reports no error, performs no register write and no notification,
leaves the state unchanged and returns the stored frequency; identifiers
outside the array are out-of-bounds accesses instead. -/
theorem clock_set_freq_ssp_silent_noop (st : clk_pdata) (hz : Nat)
    (cd : clk_data) (hcd : st.clk.get? CLK_SSP = some cd) :
    clock_set_freq st CLK_SSP hz = some (st, [], cd.freq) :=
  clock_set_freq_other_eq st CLK_SSP hz cd (by decide) hcd

/-- Witness for the C8 amended theorem at the initialized state. -/
theorem clock_set_freq_ssp_silent_noop_witness :
    clock_set_freq init_platform_clocks CLK_SSP 999 =
      some (init_platform_clocks, [], 24000000) :=
  clock_set_freq_ssp_silent_noop init_platform_clocks 999 ⟨24000000, 24⟩ rfl

/-- C9: clock_set_freq leaves the stored per-domain state unchanged for every
domain and hz (no statement of the source assigns to clk_pdata->clk), so
subsequent clock_get_freq and clock_us_to_ticks calls return the same values
as before the call. -/
theorem clock_set_freq_frame (st st' : clk_pdata) (clock hz : Nat)
    (tr : List ClkEvent) (r : Nat)
    (h : clock_set_freq st clock hz = some (st', tr, r)) :
    st' = st ∧
    (∀ d, clock_get_freq st' d = clock_get_freq st d) ∧
    (∀ d us, clock_us_to_ticks st' d us = clock_us_to_ticks st d us) := by
  have hst := clock_set_freq_state_eq st st' clock hz tr r h
  subst hst
  exact ⟨rfl, fun d => rfl, fun d us => rfl⟩

/-- Witness for C9 at the initialized state, CLK_CPU, hz = 48000 (selected
entry index 0, frequency 32000000, encoding 6). -/
theorem clock_set_freq_frame_witness :
    init_platform_clocks = init_platform_clocks ∧
    clock_get_freq init_platform_clocks CLK_SSP =
      clock_get_freq init_platform_clocks CLK_SSP ∧
    clock_us_to_ticks init_platform_clocks CLK_CPU 3 =
      clock_us_to_ticks init_platform_clocks CLK_CPU 3 := by
  have h := clock_set_freq_frame init_platform_clocks init_platform_clocks
    CLK_CPU 48000
    [ClkEvent.notifier_event NOTIFIER_ID_CPU_FREQ CLOCK_NOTIFY_PRE
       ⟨320000000, 320, 32000000⟩,
     ClkEvent.io_reg_update_bits 6,
     ClkEvent.notifier_event NOTIFIER_ID_CPU_FREQ CLOCK_NOTIFY_POST
       ⟨320000000, 320, 32000000⟩]
    320000000 rfl
  exact ⟨h.1, h.2.1 CLK_SSP, h.2.2 CLK_CPU 3⟩

/-- C10: clock_time_elapsed on a domain other than CLK_CPU and CLK_SSP
returns 0 without writing through the current pointer (the switch default
returns before the write and before any state access); on CLK_CPU and
CLK_SSP it writes the tick value read from the corresponding timer. -/
theorem clock_time_elapsed_current_write (st : clk_pdata)
    (arch_system_ticks platform_ticks previous : Nat) :
    (∀ clock, clock ≠ CLK_CPU → clock ≠ CLK_SSP →
      clock_time_elapsed st clock arch_system_ticks platform_ticks previous =
        some (none, 0)) ∧
    (∀ cd, st.clk.get? CLK_CPU = some cd → ∃ ret,
      clock_time_elapsed st CLK_CPU arch_system_ticks platform_ticks previous =
        some (some arch_system_ticks, ret)) ∧
    (∀ cd, st.clk.get? CLK_SSP = some cd → ∃ ret,
      clock_time_elapsed st CLK_SSP arch_system_ticks platform_ticks previous =
        some (some platform_ticks, ret)) := by
  refine ⟨?_, ?_, ?_⟩
  · intro clock h1 h2
    unfold clock_time_elapsed
    rw [if_neg h1, if_neg h2]
  · intro cd hcd
    unfold clock_time_elapsed
    rw [if_pos rfl]
    dsimp only
    rw [hcd]
    dsimp only
    split_ifs <;> exact ⟨_, rfl⟩
  · intro cd hcd
    unfold clock_time_elapsed
    rw [if_neg (by decide), if_pos rfl]
    dsimp only
    rw [hcd]
    dsimp only
    split_ifs <;> exact ⟨_, rfl⟩

/-- Witness for C10 at the initialized state with unknown domain 7 and the
two known domains. -/
theorem clock_time_elapsed_current_write_witness :
    clock_time_elapsed init_platform_clocks 7 5 6 0 = some (none, 0) ∧
    (∃ ret, clock_time_elapsed init_platform_clocks CLK_CPU 5 6 0 =
      some (some 5, ret)) ∧
    (∃ ret, clock_time_elapsed init_platform_clocks CLK_SSP 5 6 0 =
      some (some 6, ret)) := by
  have h := clock_time_elapsed_current_write init_platform_clocks 5 6 0
  exact ⟨h.1 7 (by decide) (by decide), h.2.1 ⟨320000000, 320⟩ rfl,
    h.2.2 ⟨24000000, 24⟩ rfl⟩
